import Mathlib

/-!
Shallow embedding of the read-only forecast query gateway
(`src/db.py`, `src/app.py`, `src/config.py`).

SQL text is modelled as `List Char` (ASCII).  The regex-based transforms
of `db._validate_sql` are embedded as executable character-list scanners
that compute exactly what the Python regexes compute on ASCII input:

  * `re.sub(r"--.*?$", " ", sql, flags=MULTILINE)`   → `stripLineComments`
  * `re.sub(r"/\*.*?\*/", " ", sql, flags=DOTALL)`   → `stripBlockComments`
  * `str.strip()` / `str.upper()`                     → `pyStrip` / `pyUpper`
  * `re.findall(r"[A-Z_]+", s)`                       → `tokensOf`
  * `str.split(";")`                                  → `splitSemi`
  * the individual `re.search` patterns               → dedicated scanners
-/

/-- ASCII whitespace recognised by Python's `str.strip()` and by the regex
class `\s` (space, tab, newline, carriage return, vertical tab, form feed). -/
def isPySpace (c : Char) : Bool :=
  c == ' ' || c == '\t' || c == '\n' || c == '\r' || c == Char.ofNat 11 || c == Char.ofNat 12

/-- Regex word character (`\w` / `\b` boundary class): letters, digits, underscore. -/
def isWordChar (c : Char) : Bool :=
  ('A' ≤ c && c ≤ 'Z') || ('a' ≤ c && c ≤ 'z') || ('0' ≤ c && c ≤ '9') || c == '_'

/-- Characters matched by the tokenizer regex `[A-Z_]+` of `_validate_sql`. -/
def isTokenChar (c : Char) : Bool :=
  ('A' ≤ c && c ≤ 'Z') || c == '_'

/-- State machine for `re.sub(r"--.*?$", " ", sql, flags=re.MULTILINE)`:
once `--` is seen, everything up to (but excluding) the next newline is
replaced by a single space.  The flag records "currently inside a line
comment". -/
def stripLineAux : Bool → List Char → List Char
  | _, [] => []
  | true, '\n' :: rest => '\n' :: stripLineAux false rest
  | true, _ :: rest => stripLineAux true rest
  | false, '-' :: '-' :: rest => ' ' :: stripLineAux true rest
  | false, c :: rest => c :: stripLineAux false rest

/-- `re.sub(r"--.*?$", " ", sql, flags=re.MULTILINE)`. -/
def stripLineComments (l : List Char) : List Char := stripLineAux false l

/-- Scan for the closing `*/` of a block comment; returns the remainder
after it, or `none` when the comment is unterminated (in which case the
regex `/\*.*?\*/` has no match starting at that opener). -/
def findClose : List Char → Option (List Char)
  | [] => none
  | '*' :: '/' :: rest => some rest
  | _ :: rest => findClose rest

/-- Fuel-driven scanner for `re.sub(r"/\*.*?\*/", " ", sql, flags=re.DOTALL)`:
each non-greedy leftmost match `/* … */` is replaced by one space.  Fuel is
the length of the input; every step consumes at least one character, so
`l.length` fuel always suffices. -/
def stripBlockAux : Nat → List Char → List Char
  | 0, l => l
  | _ + 1, [] => []
  | fuel + 1, '/' :: '*' :: rest =>
      match findClose rest with
      | some rest2 => ' ' :: stripBlockAux fuel rest2
      | none => '/' :: '*' :: rest
  | fuel + 1, c :: rest => c :: stripBlockAux fuel rest

/-- `re.sub(r"/\*.*?\*/", " ", sql, flags=re.DOTALL)`. -/
def stripBlockComments (l : List Char) : List Char := stripBlockAux l.length l

/-- Python `str.strip()` on ASCII text. -/
def pyStrip (l : List Char) : List Char :=
  ((l.dropWhile isPySpace).reverse.dropWhile isPySpace).reverse

/-- Python `str.upper()` on ASCII text. -/
def pyUpper (l : List Char) : List Char := l.map Char.toUpper

/-- Maximal runs of `[A-Z_]` characters: `re.findall(r"[A-Z_]+", s)`.
`acc` holds the (reversed) token currently being read. -/
def tokensAux : List Char → List Char → List (List Char)
  | acc, [] => if acc.isEmpty then [] else [acc.reverse]
  | acc, c :: rest =>
      if isTokenChar c then tokensAux (c :: acc) rest
      else if acc.isEmpty then tokensAux [] rest
      else acc.reverse :: tokensAux [] rest

/-- `re.findall(r"[A-Z_]+", s)`. -/
def tokensOf (l : List Char) : List (List Char) := tokensAux [] l

/-- Python `str.split(";")` (splitting on every semicolon, keeping empty parts). -/
def splitSemi : List Char → List (List Char)
  | [] => [[]]
  | ';' :: rest => [] :: splitSemi rest
  | c :: rest =>
      match splitSemi rest with
      | [] => [[c]]
      | s :: ss => (c :: s) :: ss

/-- Try a position matcher at every suffix of the text: `re.search`. -/
def searchPos (p : List Char → Bool) : List Char → Bool
  | [] => p []
  | c :: rest => p (c :: rest) || searchPos p rest

/-- Substring containment (Python `in` on strings). -/
def containsSub (pat l : List Char) : Bool :=
  searchPos (fun s => pat.isPrefixOf s) l

/-- Regex `\b` to the left of a candidate match: start of text or a
preceding non-word character. -/
def boundaryPrev : Option Char → Bool
  | none => true
  | some c => !isWordChar c

/-- Regex `\b` to the right of a candidate match: end of text or a
following non-word character. -/
def headNotWord : List Char → Bool
  | [] => true
  | c :: _ => !isWordChar c

/-- Scan for whole word `w` with `\b` on both sides (`\bW\b`), tracking the
previous character for the left boundary. -/
def searchWordAux (w : List Char) : Option Char → List Char → Bool
  | prev, [] => boundaryPrev prev && w.isPrefixOf ([] : List Char) && headNotWord []
  | prev, c :: rest =>
      (boundaryPrev prev && w.isPrefixOf (c :: rest) && headNotWord ((c :: rest).drop w.length))
        || searchWordAux w (some c) rest

/-- `re.search(r"\bW\b", s)` for a word `w` made of word characters. -/
def searchWord (w : List Char) (l : List Char) : Bool := searchWordAux w none l

/-- Position matcher for `LIMIT\s+\d+` (the `\b` left boundary is handled by
the caller `searchLimitAux`). -/
def limitAt (l : List Char) : Bool :=
  (r"LIMIT".toList).isPrefixOf l &&
    match l.drop 5 with
    | [] => false
    | c :: rest =>
        isPySpace c &&
          match rest.dropWhile isPySpace with
          | [] => false
          | d :: _ => d.isDigit

/-- Scan for `\bLIMIT\s+\d+`, tracking the previous character. -/
def searchLimitAux : Option Char → List Char → Bool
  | _, [] => false
  | prev, c :: rest => (boundaryPrev prev && limitAt (c :: rest)) || searchLimitAux (some c) rest

/-- `re.search(r"\bLIMIT\s+\d+", s)`. -/
def searchLimit (l : List Char) : Bool := searchLimitAux none l

/-- Position matcher for `SELECT\s+\*`. -/
def selectStarAt (l : List Char) : Bool :=
  (r"SELECT".toList).isPrefixOf l &&
    match l.drop 6 with
    | [] => false
    | c :: rest =>
        isPySpace c &&
          match rest.dropWhile isPySpace with
          | '*' :: _ => true
          | _ => false

/-- `re.search(r"SELECT\s+\*", s)`. -/
def searchSelectStar (l : List Char) : Bool := searchPos selectStarAt l

/-- Position matcher for `INTO\s+(?:OUTFILE|DUMPFILE)`. -/
def intoFileAt (l : List Char) : Bool :=
  (r"INTO".toList).isPrefixOf l &&
    match l.drop 4 with
    | [] => false
    | c :: rest =>
        isPySpace c &&
          ((r"OUTFILE".toList).isPrefixOf (rest.dropWhile isPySpace)
            || (r"DUMPFILE".toList).isPrefixOf (rest.dropWhile isPySpace))

/-- Position matcher for a literal followed by `\s*\(` — the shape of the
remaining injection patterns (`LOAD_FILE\s*\(`, `pg_sleep\s*\(`, …). -/
def litParenAt (lit : List Char) (l : List Char) : Bool :=
  lit.isPrefixOf l &&
    match (l.drop lit.length).dropWhile isPySpace with
    | '(' :: _ => true
    | _ => false

/-- The `injection_patterns` loop of `_validate_sql`, searched (case
sensitively, as in the source) against the upper-cased cleaned text.  The
lowercase patterns can therefore never match upper-cased text — embedded
faithfully from the source. -/
def hasInjectionPattern (cu : List Char) : Bool :=
  searchPos intoFileAt cu
    || searchPos (litParenAt (r"LOAD_FILE".toList)) cu
    || searchPos (litParenAt (r"pg_sleep".toList)) cu
    || searchPos (litParenAt (r"dblink".toList)) cu
    || searchPos (litParenAt (r"pg_read_file".toList)) cu
    || searchPos (litParenAt (r"pg_write_file".toList)) cu
    || searchPos (litParenAt (r"lo_import".toList)) cu
    || searchPos (litParenAt (r"lo_export".toList)) cu

/-- `db._FORBIDDEN_KEYWORDS`. -/
def FORBIDDEN_KEYWORDS : List (List Char) :=
  [r"INSERT", r"UPDATE", r"DELETE", r"DROP", r"ALTER", r"CREATE", r"TRUNCATE",
   r"GRANT", r"REVOKE", r"REPLACE", r"UPSERT", r"MERGE",
   r"COPY",
   r"EXECUTE", r"EXEC", r"CALL",
   r"SET ROLE", r"SET SESSION AUTHORIZATION", r"RESET ROLE",
   r"BEGIN", r"COMMIT", r"ROLLBACK", r"SAVEPOINT",
   r"LOCK", r"VACUUM", r"ANALYZE", r"REINDEX", r"CLUSTER",
   r"COMMENT", r"SECURITY", r"REASSIGN", r"DISCARD",
   r"DO", r"NOTIFY", r"LISTEN", r"UNLISTEN",
   r"PREPARE", r"DEALLOCATE"].map String.toList

/-- `db._MAIN_TABLES` — the four protected billion-row forecast tables. -/
def MAIN_TABLES : List (List Char) :=
  [r"WEATHER_FORECAST_ENSEMBLE",
   r"WEATHER_SEASONAL_ENSEMBLE",
   r"ENERGY_BASE_ENSEMBLE",
   r"ENERGY_FORECAST_ENSEMBLE"].map String.toList

/-- `db._references_main_table`. -/
def references_main_table (cleaned_upper : List Char) : Bool :=
  MAIN_TABLES.any (fun t => containsSub t cleaned_upper)

/-- `cleaned` of `_validate_sql`: the comment-stripped SQL. -/
def cleanedOf (sql : List Char) : List Char :=
  stripBlockComments (stripLineComments sql)

/-- `cleaned_upper` of `_validate_sql`: `cleaned.strip().upper()`. -/
def cleanedUpperOf (sql : List Char) : List Char :=
  pyUpper (pyStrip (cleanedOf sql))

/-- The distinct `ValueError` reasons `_validate_sql` can raise, in source
order. -/
inductive RejectReason where
  | notSelect
  | forbiddenKeyword (tok : List Char)
  | multiStatement
  | injectionPattern
  | selectStar
  | noWhere
  | noLimit
deriving DecidableEq, Repr

/-- `config.MAX_QUERY_ROWS` (default value of the environment variable). -/
def MAX_QUERY_ROWS : Nat := 5000

/-- The exact `ValueError` message texts of `_validate_sql`. -/
def reasonMsg : RejectReason → String
  | .notSelect =>
      "BLOCKED: Only SELECT / WITH queries are allowed. No data modification permitted."
  | .forbiddenKeyword tok =>
      "BLOCKED: Forbidden keyword \x27" ++ String.mk tok ++ "\x27 detected. No data modification permitted."
  | .multiStatement =>
      "BLOCKED: Multiple SQL statements are not allowed."
  | .injectionPattern =>
      "BLOCKED: Potentially dangerous SQL pattern detected."
  | .selectStar =>
      "BLOCKED: SELECT * is not permitted on forecast tables. Please select specific columns."
  | .noWhere =>
      "BLOCKED: Queries on forecast tables must include a WHERE clause to filter by project_name, location, variable, and/or time range. Full table scans are not permitted."
  | .noLimit =>
      "BLOCKED: Queries on forecast tables must include a LIMIT clause to cap the number of rows returned. Maximum allowed: " ++ toString MAX_QUERY_ROWS ++ " rows."

/-- `cleaned_upper.startswith("SELECT") or cleaned_upper.startswith("WITH")`. -/
def startsSelectOrWith (cu : List Char) : Bool :=
  (r"SELECT".toList).isPrefixOf cu || (r"WITH".toList).isPrefixOf cu

/-- `[s.strip() for s in cleaned.split(";") if s.strip()]`. -/
def nonEmptyStatements (cleaned : List Char) : List (List Char) :=
  ((splitSemi cleaned).map pyStrip).filter (fun s => !s.isEmpty)

/-- Security checks 1–4 of `_validate_sql` (always applied), in source
order, short-circuiting on the first failure. -/
def securityChecks (sql : List Char) : Option RejectReason :=
  let cleaned := cleanedOf sql
  let cu := cleanedUpperOf sql
  if !startsSelectOrWith cu then some .notSelect
  else
    match (tokensOf cu).find? (fun t => FORBIDDEN_KEYWORDS.contains t) with
    | some t => some (.forbiddenKeyword t)
    | none =>
        if 1 < (nonEmptyStatements cleaned).length then some .multiStatement
        else if hasInjectionPattern cu then some .injectionPattern
        else none

/-- The word searched by the `\bWHERE\b` scope check. -/
def WHERE_WORD : List Char := r"WHERE".toList

/-- The conditional scope checks of `_validate_sql` (applied when a main
forecast table is referenced), in source order. -/
def scopeChecks (cu : List Char) : Option RejectReason :=
  if searchSelectStar cu then some .selectStar
  else if !searchWord WHERE_WORD cu then some .noWhere
  else if !searchLimit cu then some .noLimit
  else none

/-- `db._validate_sql`: `none` means the SQL is accepted, `some r` means a
`ValueError` with message `reasonMsg r` is raised. -/
def validate_sql (sql : List Char) : Option RejectReason :=
  match securityChecks sql with
  | some r => some r
  | none =>
      if references_main_table (cleanedUpperOf sql) then scopeChecks (cleanedUpperOf sql)
      else none

/-!
Execution registry and query execution (`db._active_queries`,
`db.execute_query`, `db.cancel_query`).

The registry `_active_queries : Dict[str, int]` is modelled as a map from
request identifier to backend PID; being a map, it associates at most one
backend handle with any request identifier at any time.  The database
backend (psycopg2 cursor) is an external effect, modelled by an explicit
outcome parameter: either the statement raises, or it yields a column list
and the rows available from the cursor.
-/

/-- `db._active_queries`: request identifier → backend PID. -/
def Registry : Type := String → Option Nat

/-- `_active_queries[rid] = pid`. -/
def Registry.insert (reg : Registry) (rid : String) (pid : Nat) : Registry :=
  fun x => if x = rid then some pid else reg x

/-- `_active_queries.pop(rid, None)` (the removal part). -/
def Registry.erase (reg : Registry) (rid : String) : Registry :=
  fun x => if x = rid then none else reg x

/-- The empty registry. -/
def emptyReg : Registry := fun _ => none

/-- A database cell value as seen from Python: `None`, a value carrying an
`isoformat` method (date/datetime), or any other value (numbers, strings,
…) serialized as-is. -/
inductive PyVal where
  | vnone
  | vtime (iso : String)
  | vint (n : Int)
  | vstr (s : String)
deriving DecidableEq, Repr

/-- The per-value serialization loop of `execute_query`: values with an
`isoformat` method become their ISO string, `None` stays `None`, everything
else is appended unchanged. -/
def serializeVal : PyVal → PyVal
  | .vtime iso => .vstr iso
  | .vnone => .vnone
  | .vint n => .vint n
  | .vstr s => .vstr s

/-- The dictionary returned by `db.execute_query`. -/
structure QueryResult where
  columns : List String
  rows : List (List PyVal)
  row_count : Nat
  truncated : Bool
deriving DecidableEq, Repr

/-- Outcome of running the statement on the backend: `fail` models
`cur.execute(sql, params)` raising (database error, timeout, or
cancellation), `ok` models success with the cursor's column descriptions
and the rows the cursor can deliver. -/
inductive DbOutcome where
  | fail (err : String)
  | ok (columns : List String) (available : List (List PyVal))
deriving Repr

/-- Python truthiness of the optional `request_id` argument (`if request_id:`
is false for `None` and for the empty string). -/
def ridTruthy : Option String → Bool
  | none => false
  | some s => !s.isEmpty

/-- `db.execute_query(sql, params, request_id)`.

Returns the Python result (`Except.error e` models a raised exception with
text `e`, including `ValueError` from `_validate_sql`) together with the
final state of `_active_queries`.  Faithful structure:

  * validation runs first — on rejection nothing is executed and the
    registry is untouched;
  * the backend PID is registered under `request_id` (when truthy) before
    the statement runs;
  * at most `MAX_QUERY_ROWS + 1` rows are fetched (`cur.fetchmany`);
  * `truncated = len(rows) > MAX_QUERY_ROWS`, and the spare row is dropped;
  * the `finally:` block pops the registry entry on every exit path. -/
def execute_query (sql : List Char) (request_id : Option String) (backend_pid : Nat)
    (outcome : DbOutcome) (reg : Registry) : Except String QueryResult × Registry :=
  match validate_sql sql with
  | some r => (.error (reasonMsg r), reg)
  | none =>
      let reg1 :=
        match request_id with
        | some rid => if rid.isEmpty then reg else reg.insert rid backend_pid
        | none => reg
      let dereg : Registry → Registry := fun rg =>
        match request_id with
        | some rid => if rid.isEmpty then rg else rg.erase rid
        | none => rg
      match outcome with
      | .fail e => (.error e, dereg reg1)
      | .ok cols avail =>
          let rows := avail.take (MAX_QUERY_ROWS + 1)
          let truncated : Bool := decide (MAX_QUERY_ROWS < rows.length)
          let rows2 := if MAX_QUERY_ROWS < rows.length then rows.take MAX_QUERY_ROWS else rows
          let serialized := rows2.map (fun row => row.map serializeVal)
          (.ok { columns := cols, rows := serialized,
                 row_count := serialized.length, truncated := truncated },
           dereg reg1)

/-- Outcome of the backend-cancellation attempt inside `cancel_query`:
`ok b` models `SELECT pg_cancel_backend(pid)` returning `b`; `raised`
models any exception inside the `try:` block (caught, logged, `False`
returned). -/
inductive CancelSignal where
  | ok (accepted : Bool)
  | raised
deriving DecidableEq, Repr

/-- `db.cancel_query(request_id)`: pop the handle first; if absent return
`False`; otherwise send the cancellation signal and report its result,
returning `False` when the attempt raises. -/
def cancel_query (request_id : String) (signal : CancelSignal) (reg : Registry) :
    Bool × Registry :=
  match reg request_id with
  | none => (false, reg)
  | some _ =>
      let reg2 := reg.erase request_id
      match signal with
      | .ok accepted => (accepted, reg2)
      | .raised => (false, reg2)

/-!
Pipeline orchestrator (`app.query`) and session history (`app._sessions`,
`app._trim_history`).

The LLM backend (`llm.generate_sql`, `llm.synthesize_answer`) is an
external effect; its two possible `generate_sql` responses for one turn
(initial and retry) and the `synthesize_answer` response are supplied as
an explicit environment.  The cancellation flag for the request is a
single boolean (membership of the request identifier in
`app._cancelled_requests`, polled at the checkpoints).
-/

/-- Turn role in the conversation log. -/
inductive Role where
  | user
  | assistant
deriving DecidableEq, Repr

/-- Turn content: plain text, or the `json.dumps({"sql": sql, "error":
error_msg})` record appended on an execution failure. -/
inductive Content where
  | text (s : String)
  | sqlError (sql : List Char) (error : String)
deriving DecidableEq, Repr

/-- One role-tagged message of a session's conversation log. -/
structure Turn where
  role : Role
  content : Content
deriving DecidableEq, Repr

/-- `app.MAX_HISTORY_TURNS`. -/
def MAX_HISTORY_TURNS : Nat := 20

/-- The `while` loop body of `app._trim_history`, with explicit fuel (one
unit per `pop(0)`); `h.length` fuel always suffices. -/
def trimAux : Nat → List Turn → List Turn
  | 0, h => h
  | fuel + 1, h => if MAX_HISTORY_TURNS * 2 < h.length then trimAux fuel h.tail else h

/-- `app._trim_history`: pop the oldest turn while the history exceeds
`MAX_HISTORY_TURNS * 2` turns. -/
def trim_history (h : List Turn) : List Turn := trimAux h.length h

/-- A parsed `llm.generate_sql` response as consumed by `app.query`:
`needs_data` defaults to `True`, `sql` to the empty string, `answer` and
`explanation` are looked up with defaults at their use sites.
`sql_params` is carried opaquely (it only feeds the backend call). -/
structure LlmResp where
  needs_data : Bool := true
  answer : Option String := none
  sql : List Char := []
  explanation : Option String := none
deriving DecidableEq, Repr

/-- A parsed `llm.synthesize_answer` response as consumed by `app.query`. -/
structure Synthesis where
  answer : Option String := none
  explanation : Option String := none
  chart : Option String := none
deriving DecidableEq, Repr

/-- `app.QueryResponse` (the fields the pipeline populates). -/
structure QueryResponse where
  answer : String
  explanation : Option String := none
  sql : Option (List Char) := none
  sql_explanation : Option String := none
  data : Option QueryResult := none
  chart : Option String := none
  error : Option String := none
  request_id : String

/-- External behavior for one pipeline run: the two possible
`generate_sql` responses, the backend outcome of each of the up to two
`execute_query` calls (with their backend PIDs), and the
`synthesize_answer` response. -/
structure PipelineEnv where
  llm1 : LlmResp
  llm2 : LlmResp
  db1 : DbOutcome
  db2 : DbOutcome
  backend_pid1 : Nat := 0
  backend_pid2 : Nat := 0
  synth : Synthesis

/-- Result of one `app.query` run: the HTTP response, the session history
after the run, how many `llm.generate_sql` and `db.execute_query` calls
were made, and the final `db._active_queries` state. -/
structure RunResult where
  resp : QueryResponse
  history : List Turn
  genCalls : Nat
  execCalls : Nat
  registry : Registry

/-- `"Request was cancelled."` -/
def cancelledAnswer : String := "Request was cancelled."

/-- Default for `llm_response.get("answer", ...)`. -/
def defaultNoDataAnswer : String := "I\x27m not sure how to answer that."

/-- Answer when the first `generate_sql` response has no SQL. -/
def noSqlAnswer : String := "I couldn\x27t generate a query for that question. Could you rephrase?"

/-- Answer when the retry `generate_sql` response has no SQL. -/
def retryNoSqlAnswer (e : String) : String :=
  "I tried to query the database but encountered an error: " ++ e

/-- Answer when the retried execution also fails. -/
def bothFailedAnswer (e : String) : String :=
  "I tried two queries but both failed. Last error: " ++ e

/-- The corrective user turn folded into history after a failed execution. -/
def correctiveContent (e : String) : String :=
  "The SQL query failed with error: " ++ e ++
    "\nPlease fix the query and try again. Respond with the same JSON format."

/-- Default for `synthesis.get("answer", ...)`. -/
def synthDefaultAnswer : String := "Query executed successfully."

/-- `app.query(req)` for one request.  `cancelled` is whether the request
identifier sits in `_cancelled_requests` at the polling checkpoints
(constant across the run in this sequential model).  Faithful control
flow of `src/app.py` lines 109–220:

  * append the user turn, then trim the history;
  * if cancelled, the `InterruptedError` handler answers
    `"Request was cancelled."`;
  * a `needs_data = False` response answers directly;
  * an empty `sql` answers with the rephrase fallback;
  * a failed execution (validator reject or database error alike, both
    surfacing as a raised exception from `db.execute_query`) appends the
    failed SQL and error to history as a corrective prompt and re-invokes
    `generate_sql` exactly once; an empty retry `sql` ends the turn with
    the first error, a failed retry execution ends the turn with the
    second error, and a successful one proceeds to synthesis;
  * every terminal path appends exactly one assistant turn (untrimmed). -/
def pipeline (cancelled : Bool) (env : PipelineEnv) (question : String)
    (request_id : String) (history0 : List Turn) (reg : Registry) : RunResult :=
  let history := trim_history (history0 ++ [⟨.user, .text question⟩])
  if cancelled then
    { resp := { answer := cancelledAnswer, request_id := request_id },
      history := history ++ [⟨.assistant, .text cancelledAnswer⟩],
      genCalls := 0, execCalls := 0, registry := reg }
  else
    let r1 := env.llm1
    if !r1.needs_data then
      let answer := r1.answer.getD defaultNoDataAnswer
      { resp := { answer := answer, request_id := request_id },
        history := history ++ [⟨.assistant, .text answer⟩],
        genCalls := 1, execCalls := 0, registry := reg }
    else if r1.sql.isEmpty then
      { resp := { answer := noSqlAnswer, request_id := request_id },
        history := history ++ [⟨.assistant, .text noSqlAnswer⟩],
        genCalls := 1, execCalls := 0, registry := reg }
    else
      let sqlExpl1 := r1.explanation.getD (r"")
      match execute_query r1.sql (some request_id) env.backend_pid1 env.db1 reg with
      | (.ok qr, reg1) =>
          let answer := env.synth.answer.getD synthDefaultAnswer
          { resp := { answer := answer, explanation := some (env.synth.explanation.getD (r"")),
                      sql := some r1.sql, sql_explanation := some sqlExpl1,
                      data := some qr, chart := env.synth.chart, request_id := request_id },
            history := history ++ [⟨.assistant, .text answer⟩],
            genCalls := 1, execCalls := 1, registry := reg1 }
      | (.error e1, reg1) =>
          let h1 := history ++
            [⟨.assistant, .sqlError r1.sql e1⟩, ⟨.user, .text (correctiveContent e1)⟩]
          let r2 := env.llm2
          let sqlExpl2 := r2.explanation.getD sqlExpl1
          if r2.sql.isEmpty then
            let answer := retryNoSqlAnswer e1
            { resp := { answer := answer, sql := some r1.sql, error := some e1,
                        request_id := request_id },
              history := h1 ++ [⟨.assistant, .text answer⟩],
              genCalls := 2, execCalls := 1, registry := reg1 }
          else
            match execute_query r2.sql (some request_id) env.backend_pid2 env.db2 reg1 with
            | (.ok qr2, reg2) =>
                let answer := env.synth.answer.getD synthDefaultAnswer
                { resp := { answer := answer,
                            explanation := some (env.synth.explanation.getD (r"")),
                            sql := some r2.sql, sql_explanation := some sqlExpl2,
                            data := some qr2, chart := env.synth.chart,
                            request_id := request_id },
                  history := h1 ++ [⟨.assistant, .text answer⟩],
                  genCalls := 2, execCalls := 2, registry := reg2 }
            | (.error e2, reg2) =>
                let answer := bothFailedAnswer e2
                { resp := { answer := answer, sql := some r2.sql,
                            sql_explanation := some sqlExpl2, error := some e2,
                            request_id := request_id },
                  history := h1 ++ [⟨.assistant, .text answer⟩],
                  genCalls := 2, execCalls := 2, registry := reg2 }

/-!
Helper lemmas shared by the claim theorems.
-/

/-- With enough fuel, the trimming loop drops exactly the oldest turns
beyond the cap. -/
theorem trimAux_eq_drop (fuel : Nat) :
    ∀ h : List Turn, h.length ≤ MAX_HISTORY_TURNS * 2 + fuel →
      trimAux fuel h = h.drop (h.length - MAX_HISTORY_TURNS * 2) := by
  induction fuel with
  | zero =>
      intro h hle
      have h0 : h.length - MAX_HISTORY_TURNS * 2 = 0 := by omega
      simp [trimAux, h0]
  | succ n ih =>
      intro h hle
      simp only [trimAux]
      split
      · rename_i hgt
        rw [ih h.tail (by simp [List.length_tail]; omega)]
        rw [← List.drop_one h, List.drop_drop]
        congr 1
        simp only [List.length_drop]
        omega
      · rename_i hle2
        have h0 : h.length - MAX_HISTORY_TURNS * 2 = 0 := by omega
        simp [h0]

/-- `_trim_history` keeps exactly the most recent turns: it is dropping the
oldest turns beyond the cap. -/
theorem trim_history_eq_drop (h : List Turn) :
    trim_history h = h.drop (h.length - MAX_HISTORY_TURNS * 2) :=
  trimAux_eq_drop h.length h (by omega)

/-- After trimming, the history never exceeds the cap. -/
theorem trim_history_length_le (h : List Turn) :
    (trim_history h).length ≤ MAX_HISTORY_TURNS * 2 := by
  rw [trim_history_eq_drop, List.length_drop]
  omega

/-- Every character of every token produced by the `[A-Z_]+` tokenizer is a
token character. -/
theorem tokensAux_chars :
    ∀ (l acc t : List Char), (∀ c ∈ acc, isTokenChar c = true) →
      t ∈ tokensAux acc l → ∀ c ∈ t, isTokenChar c = true := by
  intro l
  induction l with
  | nil =>
      intro acc t hacc ht
      simp only [tokensAux] at ht
      split at ht
      · simp at ht
      · simp only [List.mem_singleton] at ht
        subst ht
        intro c hc
        exact hacc c (List.mem_reverse.mp hc)
  | cons a rest ih =>
      intro acc t hacc ht
      simp only [tokensAux] at ht
      split at ht
      · rename_i hta
        refine ih (a :: acc) t ?_ ht
        intro c hc
        rcases List.mem_cons.mp hc with hc | hc
        · subst hc; exact hta
        · exact hacc c hc
      · split at ht
        · exact ih [] t (by simp) ht
        · rcases List.mem_cons.mp ht with ht | ht
          · subst ht
            intro c hc
            exact hacc c (List.mem_reverse.mp hc)
          · exact ih [] t (by simp) ht

/-- Tokens of any text contain only `[A-Z_]` characters. -/
theorem tokensOf_chars (l t : List Char) (ht : t ∈ tokensOf l) :
    ∀ c ∈ t, isTokenChar c = true :=
  tokensAux_chars l [] t (by simp) ht

/-- An accepted SQL text passed every security check. -/
theorem validate_none_security (sql : List Char) (h : validate_sql sql = none) :
    securityChecks sql = none := by
  cases hs : securityChecks sql with
  | none => rfl
  | some r => simp [validate_sql, hs] at h

/-- C1: any SQL text whose comment-stripped, trimmed, upper-cased form does
not start with `SELECT` or `WITH` is rejected by `_validate_sql` with the
statement-shape error, and `execute_query` on such text raises that error
before registering anything or touching the backend (the outcome and the
registry are irrelevant and unchanged); conversely, any accepted text does
start with `SELECT` or `WITH`. -/
theorem c1_statement_shape (sql : List Char) :
    (startsSelectOrWith (cleanedUpperOf sql) = false →
      validate_sql sql = some RejectReason.notSelect
        ∧ ∀ (rid : Option String) (pid : Nat) (outcome : DbOutcome) (reg : Registry),
            execute_query sql rid pid outcome reg = (.error (reasonMsg .notSelect), reg))
    ∧ (validate_sql sql = none → startsSelectOrWith (cleanedUpperOf sql) = true) := by
  constructor
  · intro hb
    have hv : validate_sql sql = some RejectReason.notSelect := by
      simp [validate_sql, securityChecks, hb]
    exact ⟨hv, fun rid pid outcome reg => by simp [execute_query, hv]⟩
  · intro hv
    cases hb : startsSelectOrWith (cleanedUpperOf sql) with
    | true => rfl
    | false => simp [validate_sql, securityChecks, hb] at hv

/-- C1 witness: a mutating statement is rejected by the shape check. -/
theorem c1_statement_shape_witness :
    validate_sql (r"DROP TABLE users".toList) = some RejectReason.notSelect :=
  ((c1_statement_shape (r"DROP TABLE users".toList)).1 (by decide)).1

/-- C6: SQL text whose comment-stripped form splits on `;` into more than
one non-empty statement is always rejected by `_validate_sql`. -/
theorem c6_single_statement (sql : List Char)
    (hmulti : 1 < (nonEmptyStatements (cleanedOf sql)).length) :
    validate_sql sql ≠ none := by
  intro hv
  have hs := validate_none_security sql hv
  simp only [securityChecks] at hs
  split at hs
  · cases hs
  · split at hs
    · cases hs
    · cases hs

/-- C6 witness: two individually valid `SELECT`s joined by `;` are rejected. -/
theorem c6_single_statement_witness :
    validate_sql (r"SELECT 1; SELECT 2".toList) ≠ none :=
  c6_single_statement (r"SELECT 1; SELECT 2".toList) (by decide)

/-- C2 counterexample: `"select set role"` contains the deny-set entry
`SET ROLE` (with `SET` and `ROLE` as standalone tokens of the cleaned
upper-cased text, and `SET ROLE` as a substring), yet `_validate_sql`
accepts it - the tokenizer `[A-Z_]+` can never produce a token containing
a space, so multi-word deny-set entries never match. -/
theorem c2_multiword_counterexample :
    validate_sql (r"select set role".toList) = none
    ∧ (r"SET ROLE".toList) ∈ FORBIDDEN_KEYWORDS
    ∧ containsSub (r"SET ROLE".toList) (cleanedUpperOf (r"select set role".toList)) = true
    ∧ (r"SET".toList) ∈ tokensOf (cleanedUpperOf (r"select set role".toList))
    ∧ (r"ROLE".toList) ∈ tokensOf (cleanedUpperOf (r"select set role".toList)) := by
  refine ⟨by decide, by decide, by decide, by decide, by decide⟩

/-- C2 (amended): if any deny-set entry occurs as a standalone token
(a maximal `[A-Z_]+` run) of the comment-stripped, upper-cased text, the
validator rejects the SQL - this covers every single-word entry, in any
letter case and regardless of comments, since tokens are taken after
stripping and upper-casing; and no token ever contains a space, so the
multi-word entries (`SET ROLE`, `SET SESSION AUTHORIZATION`, `RESET ROLE`)
are never matched by the token check. -/
theorem c2_keyword_blocklist (sql : List Char) :
    (∀ t ∈ tokensOf (cleanedUpperOf sql), t ∈ FORBIDDEN_KEYWORDS → validate_sql sql ≠ none)
    ∧ (∀ kw : List Char, ' ' ∈ kw → kw ∉ tokensOf (cleanedUpperOf sql)) := by
  constructor
  · intro t ht hf hv
    have hs := validate_none_security sql hv
    simp only [securityChecks] at hs
    split at hs
    · cases hs
    · split at hs
      · cases hs
      · rename_i hfind
        have := List.find?_eq_none.mp hfind t ht
        exact this (List.elem_iff.mpr hf)
  · intro kw hsp hmem
    exact absurd (tokensOf_chars (cleanedUpperOf sql) kw hmem ' ' hsp) (by decide)

/-- C2 witness: a lower-case forbidden keyword hidden between comments is
still caught as a standalone token of the cleaned upper-cased text. -/
theorem c2_keyword_blocklist_witness :
    validate_sql (r"select /* hide */ delete".toList) ≠ none :=
  (c2_keyword_blocklist _).1 (r"DELETE".toList) (by decide) (by decide)

/-- C7: with no matching in-flight execution, `cancel_query` returns
`False` and leaves the registry untouched (and, being total here, never
raises - every exception inside its `try:` is caught and mapped to
`False`); and it returns `True` only when a handle existed and the
backend accepted the cancellation signal. -/
theorem c7_cancel_no_handle (rid : String) (sig : CancelSignal) (reg : Registry) :
    (reg rid = none → cancel_query rid sig reg = (false, reg))
    ∧ ((cancel_query rid sig reg).1 = true →
        (∃ p, reg rid = some p) ∧ sig = CancelSignal.ok true) := by
  constructor
  · intro h
    simp [cancel_query, h]
  · intro h
    cases hr : reg rid with
    | none => simp [cancel_query, hr] at h
    | some p =>
        refine ⟨⟨p, rfl⟩, ?_⟩
        cases sig with
        | raised => simp [cancel_query, hr] at h
        | ok accepted =>
            simp [cancel_query, hr] at h
            rw [h]

/-- C7 witness: cancelling an identifier with no registered handle
returns `False` and changes nothing. -/
theorem c7_cancel_no_handle_witness :
    cancel_query (r"req-1") (CancelSignal.ok true) emptyReg = (false, emptyReg) :=
  (c7_cancel_no_handle (r"req-1") (CancelSignal.ok true) emptyReg).1 rfl

/-- C10: `cancel_query` pops the registry entry before attempting the
backend signal, so after any call - the signal succeeding, being refused,
or raising - the registry holds no entry for the identifier, and an
immediately repeated `cancel_query` for the same identifier returns
`False` and changes nothing. -/
theorem c10_cancel_pops_first (rid : String) (sig sig2 : CancelSignal) (reg : Registry) :
    ((cancel_query rid sig reg).2) rid = none
    ∧ cancel_query rid sig2 ((cancel_query rid sig reg).2) =
        (false, (cancel_query rid sig reg).2) := by
  have hnone : ((cancel_query rid sig reg).2) rid = none := by
    cases hr : reg rid with
    | none => simp [cancel_query, hr]
    | some p => cases sig <;> simp [cancel_query, hr, Registry.erase]
  refine ⟨hnone, ?_⟩
  generalize (cancel_query rid sig reg).2 = reg2 at hnone ⊢
  simp [cancel_query, hnone]

/-- C3: for a truthy request identifier not already registered, the
registry holds no entry for it after `execute_query` returns or raises -
on validation rejection nothing was ever registered, and on both backend
outcomes the `finally:` block pops the entry.  (The registry is a map, so
at most one backend handle is associated with an identifier at any time.) -/
theorem c3_registry_entry_cleared (sql : List Char) (rid : String) (pid : Nat)
    (outcome : DbOutcome) (reg : Registry)
    (hrid : rid ≠ "") (hreg : reg rid = none) :
    ((execute_query sql (some rid) pid outcome reg).2) rid = none := by
  have hE : rid.isEmpty = false := by
    cases hi : rid.isEmpty with
    | false => rfl
    | true => exact absurd ((String.isEmpty_iff rid).mp hi) hrid
  cases hv : validate_sql sql with
  | some r => simpa [execute_query, hv] using hreg
  | none =>
      cases outcome with
      | fail e => simp [execute_query, hv, hE, Registry.erase]
      | ok cols avail => simp [execute_query, hv, hE, Registry.erase]

/-- C3 witness: after a successful execution under identifier `req-1`
starting from an empty registry, no entry remains. -/
theorem c3_registry_entry_cleared_witness :
    ((execute_query (r"SELECT 1".toList) (some (r"req-1")) 7
        (DbOutcome.ok [] []) emptyReg).2) (r"req-1") = none :=
  c3_registry_entry_cleared (r"SELECT 1".toList) (r"req-1") 7
    (DbOutcome.ok [] []) emptyReg (by decide) rfl

/-- C4: for SQL referencing a protected forecast table, a `SELECT *`, a
missing `WHERE`, or a missing literal-integer `LIMIT` makes `_validate_sql`
reject; explicit columns together with a `WHERE` and a `LIMIT` pass the
scope checks; and SQL referencing no protected table skips the scope
checks entirely (its verdict is exactly that of the security checks) -
in particular `SELECT 1` is accepted. -/
theorem c4_scope_checks (sql : List Char) :
    (references_main_table (cleanedUpperOf sql) = true →
      (searchSelectStar (cleanedUpperOf sql) = true
        ∨ searchWord WHERE_WORD (cleanedUpperOf sql) = false
        ∨ searchLimit (cleanedUpperOf sql) = false) →
      validate_sql sql ≠ none)
    ∧ (searchSelectStar (cleanedUpperOf sql) = false →
        searchWord WHERE_WORD (cleanedUpperOf sql) = true →
        searchLimit (cleanedUpperOf sql) = true →
        scopeChecks (cleanedUpperOf sql) = none)
    ∧ (references_main_table (cleanedUpperOf sql) = false →
        validate_sql sql = securityChecks sql)
    ∧ validate_sql (r"SELECT 1".toList) = none := by
  refine ⟨?_, ?_, ?_, by decide⟩
  · intro href hbad hv
    have hs := validate_none_security sql hv
    have hscope : scopeChecks (cleanedUpperOf sql) = none := by
      simpa [validate_sql, hs, href] using hv
    rcases hbad with hb | hb | hb
    · simp [scopeChecks, hb] at hscope
    · cases hstar : searchSelectStar (cleanedUpperOf sql) with
      | true => simp [scopeChecks, hstar] at hscope
      | false => simp [scopeChecks, hstar, hb] at hscope
    · cases hstar : searchSelectStar (cleanedUpperOf sql) with
      | true => simp [scopeChecks, hstar] at hscope
      | false =>
          cases hw : searchWord WHERE_WORD (cleanedUpperOf sql) with
          | false => simp [scopeChecks, hstar, hw] at hscope
          | true => simp [scopeChecks, hstar, hw, hb] at hscope
  · intro h1 h2 h3
    simp [scopeChecks, h1, h2, h3]
  · intro href
    cases hs : securityChecks sql with
    | some r => simp [validate_sql, hs]
    | none => simp [validate_sql, hs, href]

/-- C4 witness: a protected-table query without `WHERE` is rejected; the
same query with explicit columns, `WHERE` and `LIMIT` passes the scope
checks; `SELECT 1` passes everything. -/
theorem c4_scope_checks_witness :
    validate_sql (r"SELECT temp FROM WEATHER_FORECAST_ENSEMBLE".toList) ≠ none
    ∧ scopeChecks (cleanedUpperOf
        (r"SELECT temp FROM WEATHER_FORECAST_ENSEMBLE WHERE loc = x LIMIT 10".toList)) = none :=
  ⟨(c4_scope_checks (r"SELECT temp FROM WEATHER_FORECAST_ENSEMBLE".toList)).1
      (by decide) (Or.inr (Or.inl (by decide))),
   (c4_scope_checks
      (r"SELECT temp FROM WEATHER_FORECAST_ENSEMBLE WHERE loc = x LIMIT 10".toList)).2.1
      (by decide) (by decide) (by decide)⟩

/-- C9: on every successful `execute_query`, at most
`MAX_QUERY_ROWS + 1` rows are fetched from the cursor, the returned
result holds at most `MAX_QUERY_ROWS` rows, its `truncated` flag is set
iff more than `MAX_QUERY_ROWS` rows were fetched (the spare row being
dropped), and `row_count` is the number of rows returned - for every
available row set, hence regardless of the query's own `LIMIT`. -/
theorem c9_row_cap (sql : List Char) (rid : Option String) (pid : Nat)
    (cols : List String) (avail : List (List PyVal)) (reg : Registry)
    (r : QueryResult) (reg2 : Registry)
    (h : execute_query sql rid pid (DbOutcome.ok cols avail) reg = (.ok r, reg2)) :
    (avail.take (MAX_QUERY_ROWS + 1)).length ≤ MAX_QUERY_ROWS + 1
    ∧ r.rows.length ≤ MAX_QUERY_ROWS
    ∧ r.row_count = r.rows.length
    ∧ (r.truncated = true ↔ MAX_QUERY_ROWS < (avail.take (MAX_QUERY_ROWS + 1)).length) := by
  cases hv : validate_sql sql with
  | some rr => simp [execute_query, hv] at h
  | none =>
      simp only [execute_query, hv, Prod.mk.injEq, Except.ok.injEq] at h
      obtain ⟨hr, -⟩ := h
      subst hr
      refine ⟨by simp [List.length_take], ?_, rfl, ?_⟩
      · split
        · simp [List.length_take]
        · rename_i hc
          simp [List.length_take] at hc ⊢
          omega
      · simp

/-- The user turn appended at the start of a run. -/
def userTurn (q : String) : Turn := ⟨Role.user, Content.text q⟩

/-- Environment exhibiting the C5 counterexample: the first response
carries SQL that the validator rejects, and the retry response carries no
SQL, so the pipeline never attempts a second execution. -/
def envC5x : PipelineEnv :=
  { llm1 := { sql := (r"DROP TABLE forecasts").toList },
    llm2 := {},
    db1 := DbOutcome.fail (r"unreachable"),
    db2 := DbOutcome.fail (r"unreachable"),
    synth := {} }

/-- C5 counterexample: a run whose first execution attempt fails (here a
validator rejection) but whose retry interpreter response contains no SQL
makes exactly one execution attempt, not "exactly once more" - the second
execution is skipped and the turn ends with the first error. -/
theorem c5_counterexample :
    (execute_query envC5x.llm1.sql (some (r"req-1")) envC5x.backend_pid1 envC5x.db1
        emptyReg).1 = Except.error (reasonMsg RejectReason.notSelect)
    ∧ (pipeline false envC5x (r"how many rows") (r"req-1") [] emptyReg).genCalls = 2
    ∧ (pipeline false envC5x (r"how many rows") (r"req-1") [] emptyReg).execCalls = 1
    ∧ (pipeline false envC5x (r"how many rows") (r"req-1") [] emptyReg).resp.answer
        = retryNoSqlAnswer (reasonMsg RejectReason.notSelect) := by
  exact ⟨rfl, rfl, rfl, rfl⟩

/-- C5 (amended): when the first execution attempt fails - by validator
rejection or database error alike, both surfacing as the same raised
error - the orchestrator appends the failed SQL and the error text to
history as a corrective prompt and re-invokes the interpreter exactly
once; if the retry response carries SQL, execution is attempted exactly
once more, and a second failure ends the turn with an answer carrying the
last error text and no further retry; if the retry response carries no
SQL, the turn ends with the first error and no second execution.  A
validator rejection produces exactly the raised-error shape the retry
path consumes. -/
theorem c5_retry_path (env : PipelineEnv) (q rid : String) (h0 : List Turn)
    (reg reg1 : Registry) (e1 : String)
    (hnd : env.llm1.needs_data = true)
    (hsql : env.llm1.sql ≠ [])
    (hexec : execute_query env.llm1.sql (some rid) env.backend_pid1 env.db1 reg
        = (Except.error e1, reg1)) :
    (pipeline false env q rid h0 reg).genCalls = 2
    ∧ (pipeline false env q rid h0 reg).history
        = trim_history (h0 ++ [userTurn q])
          ++ [⟨Role.assistant, Content.sqlError env.llm1.sql e1⟩,
              ⟨Role.user, Content.text (correctiveContent e1)⟩,
              ⟨Role.assistant, Content.text (pipeline false env q rid h0 reg).resp.answer⟩]
    ∧ (env.llm2.sql = [] →
        (pipeline false env q rid h0 reg).execCalls = 1
        ∧ (pipeline false env q rid h0 reg).resp.answer = retryNoSqlAnswer e1
        ∧ (pipeline false env q rid h0 reg).resp.error = some e1)
    ∧ (env.llm2.sql ≠ [] →
        (pipeline false env q rid h0 reg).execCalls = 2
        ∧ ∀ (e2 : String) (reg2 : Registry),
            execute_query env.llm2.sql (some rid) env.backend_pid2 env.db2 reg1
              = (Except.error e2, reg2) →
            (pipeline false env q rid h0 reg).resp.answer = bothFailedAnswer e2
            ∧ (pipeline false env q rid h0 reg).resp.error = some e2
            ∧ (pipeline false env q rid h0 reg).resp.sql = some env.llm2.sql)
    ∧ (∀ (sql2 : List Char) (rr : RejectReason) (rid2 : Option String) (pid2 : Nat)
          (outcome : DbOutcome) (regA : Registry), validate_sql sql2 = some rr →
          execute_query sql2 rid2 pid2 outcome regA = (Except.error (reasonMsg rr), regA)) := by
  have hie : env.llm1.sql.isEmpty = false := by
    cases hl : env.llm1.sql.isEmpty with
    | false => rfl
    | true => exact absurd (List.isEmpty_iff.mp hl) hsql
  have hreject : ∀ (sql2 : List Char) (rr : RejectReason) (rid2 : Option String) (pid2 : Nat)
      (outcome : DbOutcome) (regA : Registry), validate_sql sql2 = some rr →
      execute_query sql2 rid2 pid2 outcome regA = (Except.error (reasonMsg rr), regA) := by
    intro sql2 rr rid2 pid2 outcome regA hv
    simp [execute_query, hv]
  cases h2e : env.llm2.sql.isEmpty with
  | true =>
      have h2nil : env.llm2.sql = [] := List.isEmpty_iff.mp h2e
      refine ⟨?_, ?_, ?_, ?_, hreject⟩
      · simp [pipeline, userTurn, hnd, hie, hexec, h2e]
      · simp [pipeline, userTurn, hnd, hie, hexec, h2e]
      · intro _
        refine ⟨?_, ?_, ?_⟩ <;> simp [pipeline, userTurn, hnd, hie, hexec, h2e]
      · intro hne
        exact absurd h2nil hne
  | false =>
      rcases hx2 : execute_query env.llm2.sql (some rid) env.backend_pid2 env.db2 reg1
        with ⟨res2, regb⟩
      cases res2 with
      | ok qr2 =>
          refine ⟨?_, ?_, ?_, ?_, hreject⟩
          · simp [pipeline, userTurn, hnd, hie, hexec, h2e, hx2]
          · simp [pipeline, userTurn, hnd, hie, hexec, h2e, hx2]
          · intro h2nil
            rw [h2nil] at h2e
            simp at h2e
          · intro _
            refine ⟨by simp [pipeline, userTurn, hnd, hie, hexec, h2e, hx2], ?_⟩
            intro e2 reg2 hx2b
            simp at hx2b
      | error e2 =>
          refine ⟨?_, ?_, ?_, ?_, hreject⟩
          · simp [pipeline, userTurn, hnd, hie, hexec, h2e, hx2]
          · simp [pipeline, userTurn, hnd, hie, hexec, h2e, hx2]
          · intro h2nil
            rw [h2nil] at h2e
            simp at h2e
          · intro _
            refine ⟨by simp [pipeline, userTurn, hnd, hie, hexec, h2e, hx2], ?_⟩
            intro e2b reg2 hx2b
            simp only [Prod.mk.injEq, Except.error.injEq] at hx2b
            obtain ⟨he, -⟩ := hx2b
            subst he
            refine ⟨?_, ?_, ?_⟩ <;> simp [pipeline, userTurn, hnd, hie, hexec, h2e, hx2]

/-- Environment for the C5 witness: a first database failure followed by a
retry that also fails at the database. -/
def envC5w : PipelineEnv :=
  { llm1 := { sql := (r"SELECT 1").toList },
    llm2 := { sql := (r"SELECT 2").toList },
    db1 := DbOutcome.fail (r"relation does not exist"),
    db2 := DbOutcome.fail (r"still failing"),
    synth := {} }

/-- C5 witness: one corrective retry lap with a second failure makes
exactly two interpreter calls and two execution attempts. -/
theorem c5_retry_path_witness :
    (pipeline false envC5w (r"question") (r"req-1") [] emptyReg).genCalls = 2
    ∧ (pipeline false envC5w (r"question") (r"req-1") [] emptyReg).execCalls = 2 := by
  have h := c5_retry_path envC5w (r"question") (r"req-1") [] emptyReg
      (Registry.erase (Registry.insert emptyReg (r"req-1") 0) (r"req-1"))
      (r"relation does not exist") rfl (by decide) rfl
  exact ⟨h.1, (h.2.2.2.1 (by decide)).1⟩

/-- A session history already at the cap (40 turns). -/
def fortyTurns : List Turn := List.replicate 40 ⟨Role.user, Content.text (r"x")⟩

/-- Environment for the C8 counterexample: the interpreter answers
directly without needing data. -/
def envC8 : PipelineEnv :=
  { llm1 := { needs_data := false, answer := some (r"hello") },
    llm2 := {},
    db1 := DbOutcome.fail (r""),
    db2 := DbOutcome.fail (r""),
    synth := {} }

/-- C8 counterexample: starting from a history already at the cap of
`MAX_HISTORY_TURNS * 2 = 40` turns, a completed run leaves 41 turns -
trimming happens only when the user turn is appended, and the assistant
turns appended afterwards are never trimmed, so the history exceeds the
cap after the pipeline operation completes. -/
theorem c8_counterexample :
    MAX_HISTORY_TURNS * 2 = 40
    ∧ fortyTurns.length = 40
    ∧ (pipeline false envC8 (r"q") (r"req-1") fortyTurns emptyReg).history.length = 41 := by
  exact ⟨rfl, by decide, by decide⟩

/-- C8 (amended): the history is trimmed when the user turn is appended:
at that point its length never exceeds `MAX_HISTORY_TURNS * 2`, and when
the cap was exceeded the oldest turns are evicted first (the trimmed
history is a suffix: exactly dropping the oldest turns) leaving exactly
the cap of most-recent turns.  The run then appends at most three
further turns without re-trimming, so at completion the length is at
most `MAX_HISTORY_TURNS * 2 + 3` (the cap itself can be exceeded, per
the counterexample). -/
theorem c8_history_cap (h0 : List Turn) (q : String) :
    ((trim_history (h0 ++ [userTurn q])).length ≤ MAX_HISTORY_TURNS * 2)
    ∧ (MAX_HISTORY_TURNS * 2 < (h0 ++ [userTurn q]).length →
        trim_history (h0 ++ [userTurn q])
          = (h0 ++ [userTurn q]).drop
              ((h0 ++ [userTurn q]).length - MAX_HISTORY_TURNS * 2)
        ∧ (trim_history (h0 ++ [userTurn q])).length
            = MAX_HISTORY_TURNS * 2)
    ∧ ∀ (cancelled : Bool) (env : PipelineEnv) (rid : String) (reg : Registry),
        (pipeline cancelled env q rid h0 reg).history.length
          ≤ MAX_HISTORY_TURNS * 2 + 3 := by
  refine ⟨trim_history_length_le _, ?_, ?_⟩
  · intro hgt
    refine ⟨trim_history_eq_drop _, ?_⟩
    rw [trim_history_eq_drop, List.length_drop]
    omega
  · intro cancelled env rid reg
    have hb := trim_history_length_le (h0 ++ [userTurn q])
    simp only [userTurn] at hb
    cases cancelled with
    | true =>
        simp only [pipeline, if_true, List.length_append]
        simp only [List.length_cons, List.length_nil]
        omega
    | false =>
        simp only [pipeline]
        split
        · simp only [List.length_append, List.length_cons, List.length_nil]; omega
        · split
          · simp only [List.length_append, List.length_cons, List.length_nil]; omega
          · split
            · simp only [List.length_append, List.length_cons, List.length_nil]; omega
            · split
              · simp only [List.length_append, List.length_cons, List.length_nil]; omega
              · split
                · simp only [List.length_append, List.length_cons, List.length_nil]; omega
                · split
                  · simp only [List.length_append, List.length_cons, List.length_nil]; omega
                  · simp only [List.length_append, List.length_cons, List.length_nil]; omega

/-- C8 witness: appending a user turn to a full 40-turn history trims it
back to exactly the 40 most recent turns (the oldest dropped first), and
the completed run stays within the cap plus three. -/
theorem c8_history_cap_witness :
    trim_history (fortyTurns ++ [userTurn (r"q")])
      = (fortyTurns ++ [userTurn (r"q")]).drop
          ((fortyTurns ++ [userTurn (r"q")]).length - MAX_HISTORY_TURNS * 2)
    ∧ (trim_history (fortyTurns ++ [userTurn (r"q")])).length
        = MAX_HISTORY_TURNS * 2
    ∧ (pipeline false envC8 (r"q") (r"req-1") fortyTurns emptyReg).history.length
        ≤ MAX_HISTORY_TURNS * 2 + 3 := by
  have h := c8_history_cap fortyTurns (r"q")
  have h2 := h.2.1 (by decide)
  exact ⟨h2.1, h2.2, h.2.2 false envC8 (r"req-1") emptyReg⟩

/-- Concrete available rows for the C9 witness. -/
def availW : List (List PyVal) := [[PyVal.vint 1], [PyVal.vint 2]]

/-- The result `execute_query` produces for `availW`. -/
def qrW : QueryResult :=
  { columns := [r"X"], rows := [[PyVal.vint 1], [PyVal.vint 2]],
    row_count := 2, truncated := false }

/-- C9 witness: a successful execution over two available rows returns
both rows, uncapped and untruncated. -/
theorem c9_row_cap_witness :
    (availW.take (MAX_QUERY_ROWS + 1)).length ≤ MAX_QUERY_ROWS + 1
    ∧ qrW.rows.length ≤ MAX_QUERY_ROWS
    ∧ qrW.row_count = qrW.rows.length
    ∧ (qrW.truncated = true ↔ MAX_QUERY_ROWS < (availW.take (MAX_QUERY_ROWS + 1)).length) :=
  c9_row_cap (r"SELECT 1".toList) none 0 [r"X"] availW emptyReg qrW emptyReg rfl
